import Mathlib

/-!
Verification of the Invoicely-Pro invoicing application core: the invoice
totals calculator, the line-item editor operations, the numeric input
handlers, and the PDF/print document renderer.  JavaScript numbers are
modelled as rationals (`ℚ`); fallible effectful functions are modelled as
functions into `Except`/lists of effects over an explicit environment.
-/

namespace Invoicely

/-- A line item of an invoice, as in the `InvoiceItem` interface:
`{ id, description, quantity, rate, amount }`. -/
structure InvoiceItem where
  id : String
  description : String
  quantity : ℚ
  rate : ℚ
  amount : ℚ
  deriving Repr, DecidableEq

/-- The triple returned by `calculateTotals`. -/
structure Totals where
  subtotal : ℚ
  taxAmount : ℚ
  total : ℚ
  deriving Repr, DecidableEq

/-- Source function `calculateTotals` from `NewInvoice` / `InvoiceEditor`:
`subtotal = items.reduce((sum, item) => sum + item.amount, 0)`;
`taxAmount = subtotal * (taxRate / 100)`; `total = subtotal + taxAmount`. -/
def calculateTotals (items : List InvoiceItem) (taxRate : ℚ) : Totals :=
  let subtotal := items.foldl (fun sum item => sum + item.amount) 0
  let taxAmount := subtotal * (taxRate / 100)
  let total := subtotal + taxAmount
  { subtotal := subtotal, taxAmount := taxAmount, total := total }

/-- One field-update request as passed to `updateItem(id, field, value)`;
the `field : keyof InvoiceItem` together with its `value`. -/
inductive ItemField where
  | idField (v : String)
  | descriptionField (v : String)
  | quantityField (v : ℚ)
  | rateField (v : ℚ)
  | amountField (v : ℚ)
  deriving Repr, DecidableEq

/-- The spread `{ ...item, [field]: value }`. -/
def applyField (item : InvoiceItem) : ItemField → InvoiceItem
  | .idField v => { item with id := v }
  | .descriptionField v => { item with description := v }
  | .quantityField v => { item with quantity := v }
  | .rateField v => { item with rate := v }
  | .amountField v => { item with amount := v }

/-- The test `field === 'quantity' || field === 'rate'`. -/
def isQuantityOrRate : ItemField → Bool
  | .quantityField _ => true
  | .rateField _ => true
  | _ => false

/-- Source function `updateItem(id, field, value)`: maps over the items; for the item(s)
whose id matches, applies the field update, and when the field is
`quantity` or `rate` recomputes `amount = quantity * rate`. -/
def updateItem (items : List InvoiceItem) (id : String) (f : ItemField) :
    List InvoiceItem :=
  items.map fun item =>
    if item.id = id then
      let updated := applyField item f
      if isQuantityOrRate f then
        { updated with amount := updated.quantity * updated.rate }
      else updated
    else item

/-- Source function `addItem()`: appends `{ id: Date.now().toString(), description: '',
quantity: 1, rate: 0, amount: 0 }`.  The id produced by `Date.now()` is
environment-dependent, so it is a parameter. -/
def addItem (items : List InvoiceItem) (newId : String) : List InvoiceItem :=
  items ++ [{ id := newId, description := "", quantity := 1, rate := 0, amount := 0 }]

/-- Source function `removeItem(id)`: only when more than one item remains,
`setItems(items.filter(item => item.id !== id))`. -/
def removeItem (items : List InvoiceItem) (id : String) : List InvoiceItem :=
  if items.length > 1 then items.filter (fun item => item.id ≠ id) else items

/-- The initial `items` state of `NewInvoice`:
`[{ id: '1', description: '', quantity: 1, rate: 0, amount: 0 }]`. -/
def initialItems : List InvoiceItem :=
  [{ id := "1", description := "", quantity := 1, rate := 0, amount := 0 }]

/-- Value of a run of decimal digit characters. -/
def digitsToNat (ds : List Char) : Nat :=
  ds.foldl (fun n c => 10 * n + (c.toNat - ('0').toNat)) 0

/-- Model of the JavaScript builtin `parseFloat`: skips leading
whitespace, then parses the longest prefix of the form
`[+-] digits [. digits] [eE [+-] digits]` (a malformed exponent part is
ignored, as in JS).  Returns `none` when no digit is found, which is the
`NaN` result of `parseFloat` on non-numeric input. -/
def jsParseFloat (s : String) : Option ℚ :=
  let cs := s.data.dropWhile Char.isWhitespace
  let signAndRest : ℚ × List Char :=
    match cs with
    | '-' :: rest => (-1, rest)
    | '+' :: rest => (1, rest)
    | _ => (1, cs)
  let sign := signAndRest.1
  let cs1 := signAndRest.2
  let intDigits := cs1.takeWhile Char.isDigit
  let rest1 := cs1.dropWhile Char.isDigit
  let fracAndRest : List Char × List Char :=
    match rest1 with
    | '.' :: r => (r.takeWhile Char.isDigit, r.dropWhile Char.isDigit)
    | _ => ([], rest1)
  let fracDigits := fracAndRest.1
  let rest2 := fracAndRest.2
  if intDigits.isEmpty && fracDigits.isEmpty then none
  else
    let mantissa : ℚ :=
      (digitsToNat intDigits : ℚ) +
        (digitsToNat fracDigits : ℚ) / ((10 : ℚ) ^ fracDigits.length)
    let expPart : ℤ :=
      match rest2 with
      | e :: r =>
        if e = 'e' ∨ e = 'E' then
          let esignAndRest : ℤ × List Char :=
            match r with
            | '-' :: rr => (-1, rr)
            | '+' :: rr => (1, rr)
            | _ => (1, r)
          let eds := esignAndRest.2.takeWhile Char.isDigit
          if eds.isEmpty then 0 else esignAndRest.1 * (digitsToNat eds : ℤ)
        else 0
      | [] => 0
    some (sign * mantissa * (10 : ℚ) ^ expPart)

/-- The input-handler expression `parseFloat(e.target.value) || 0`: a
failed parse (`NaN`, falsy) yields `0`; a parsed `0` (also falsy) yields
the same `0`; any other parsed number passes through. -/
def parseOr0 (s : String) : ℚ :=
  match jsParseFloat s with
  | none => 0
  | some q => if q = 0 then 0 else q

/-- The `taxRate` field of the editor's `invoiceData` state. -/
structure InvoiceData where
  taxRate : ℚ
  deriving Repr, DecidableEq

/-- The tax-rate input handler:
`setInvoiceData({ ...invoiceData, taxRate: parseFloat(e.target.value) || 0 })`. -/
def handleTaxRateInput (d : InvoiceData) (raw : String) : InvoiceData :=
  { d with taxRate := parseOr0 raw }

/-- One editor operation as invocable from the rendered UI: the Add Item
button, the per-row trash button, and the three per-row `onChange`
handlers (description as text; quantity and rate through
`parseFloat(...) || 0`). -/
inductive EditorOp where
  | add (newId : String)
  | remove (id : String)
  | editDescription (id : String) (v : String)
  | editQuantity (id : String) (raw : String)
  | editRate (id : String) (raw : String)
  deriving Repr, DecidableEq

/-- Effect of one editor operation on the `items` state. -/
def applyOp (items : List InvoiceItem) : EditorOp → List InvoiceItem
  | .add newId => addItem items newId
  | .remove id => removeItem items id
  | .editDescription id v => updateItem items id (.descriptionField v)
  | .editQuantity id raw => updateItem items id (.quantityField (parseOr0 raw))
  | .editRate id raw => updateItem items id (.rateField (parseOr0 raw))

/-- Running a sequence of editor operations from a given `items` state. -/
def applyOps (items : List InvoiceItem) (ops : List EditorOp) : List InvoiceItem :=
  ops.foldl applyOp items

/-- The derived-amount invariant: every item's `amount` equals its
`quantity * rate`. -/
def derivedOK (items : List InvoiceItem) : Prop :=
  ∀ item ∈ items, item.amount = item.quantity * item.rate

instance : DecidablePred derivedOK := fun items =>
  inferInstanceAs (Decidable (∀ item ∈ items, _))

/-- Model of JavaScript `x.toFixed(2)` (read back as a number): rounding
to 2 fractional digits, halves away from zero. -/
def jsToFixed2 (x : ℚ) : ℚ :=
  if x < 0 then -((⌊(-x) * 100 + 1 / 2⌋ : ℤ) : ℚ) / 100
  else ((⌊x * 100 + 1 / 2⌋ : ℤ) : ℚ) / 100

/-- The three amounts shown in the Invoice Summary block, each rendered
with `.toFixed(2)`. -/
structure SummaryDisplay where
  subtotalShown : ℚ
  taxShown : ℚ
  totalShown : ℚ
  deriving Repr, DecidableEq

/-- The Invoice Summary block: `${subtotal.toFixed(2)}`,
`${taxAmount.toFixed(2)}`, `${total.toFixed(2)}` over the values of
`calculateTotals`. -/
def invoiceSummaryDisplay (items : List InvoiceItem) (taxRate : ℚ) :
    SummaryDisplay :=
  let t := calculateTotals items taxRate
  { subtotalShown := jsToFixed2 t.subtotal
    taxShown := jsToFixed2 t.taxAmount
    totalShown := jsToFixed2 t.total }

/-- The component state read by `calculateTotals`: the `items` list and
the `invoiceData` record holding the tax rate. -/
structure EditorState where
  items : List InvoiceItem
  invoiceData : InvoiceData
  deriving Repr, DecidableEq

/-- One iteration of `items.reduce((sum, item) => sum + item.amount, 0)`
with the component state threaded explicitly: the accumulator grows, the
state is read but never written. -/
def sumStep (acc : ℚ × EditorState) (item : InvoiceItem) : ℚ × EditorState :=
  (acc.1 + item.amount, acc.2)

/-- Function `calculateTotals` as a state-passing computation over the component
state, step for step: the reduce over `items`, then the tax and total
arithmetic reading `invoiceData.taxRate`.  Returns the totals together
with the final state. -/
def calculateTotalsST (s : EditorState) : Totals × EditorState :=
  let r1 := s.items.foldl sumStep (0, s)
  let subtotal := r1.1
  let s1 := r1.2
  let taxAmount := subtotal * (s1.invoiceData.taxRate / 100)
  let total := subtotal + taxAmount
  ({ subtotal := subtotal, taxAmount := taxAmount, total := total }, s1)

/-- The two supported paper sizes. -/
inductive PaperFormat where
  | A4
  | A5
  deriving Repr, DecidableEq

/-- Invoice status enum. -/
inductive InvoiceStatus where
  | draft
  | sent
  | paid
  | overdue
  deriving Repr, DecidableEq

/-- The `Invoice` record consumed by the PDF generator. -/
structure Invoice where
  id : String
  invoice_number : String
  title : String
  status : InvoiceStatus
  issue_date : String
  due_date : String
  subtotal : ℚ
  tax_rate : ℚ
  tax_amount : ℚ
  total : ℚ
  notes : Option String
  deriving Repr, DecidableEq

/-- The `Client` record consumed by the PDF generator. -/
structure Client where
  name : String
  email : String
  company : Option String
  address : Option String
  phone : Option String
  deriving Repr, DecidableEq

/-- The `Profile` record (invoice issuer) consumed by the PDF generator. -/
structure Profile where
  full_name : String
  company_name : Option String
  company_address : Option String
  phone : Option String
  email : String
  deriving Repr, DecidableEq

/-- The format-dependent layout metrics produced by `createStyles`: every
numeric style value written as an `isA5 ? small : large` ternary in the
source, flattened as `styleObject + FieldName`. -/
structure Styles where
  pagePadding : ℚ
  pageFontSize : ℚ
  headerMarginBottom : ℚ
  headerPaddingBottom : ℚ
  companyNameFontSize : ℚ
  companyDetailsFontSize : ℚ
  invoiceTitleFontSize : ℚ
  invoiceNumberFontSize : ℚ
  statusBadgeFontSize : ℚ
  sectionMarginTop : ℚ
  sectionMarginBottom : ℚ
  billToMarginRight : ℚ
  billToTitleFontSize : ℚ
  billToDetailsFontSize : ℚ
  detailsLabelFontSize : ℚ
  detailsValueFontSize : ℚ
  tableMarginTop : ℚ
  tableMarginBottom : ℚ
  tableHeaderPaddingVertical : ℚ
  tableHeaderCellFontSize : ℚ
  tableRowPaddingVertical : ℚ
  tableCellFontSize : ℚ
  totalsSectionWidth : ℚ
  totalsSectionMarginTop : ℚ
  totalsSectionMarginBottom : ℚ
  totalLabelFontSize : ℚ
  totalValueFontSize : ℚ
  grandTotalLabelFontSize : ℚ
  grandTotalValueFontSize : ℚ
  notesSectionMarginTop : ℚ
  notesSectionPadding : ℚ
  notesTitleFontSize : ℚ
  notesTextFontSize : ℚ

/-- Source function `createStyles(format)`: `const isA5 = format === 'A5'`, then each
metric chosen by an `isA5 ?` ternary exactly as in the source. -/
def createStyles (format : PaperFormat) : Styles :=
  let isA5 := format = PaperFormat.A5
  { pagePadding := if isA5 then 20 else 40
    pageFontSize := if isA5 then 9 else 12
    headerMarginBottom := if isA5 then 18 else 28
    headerPaddingBottom := if isA5 then 8 else 12
    companyNameFontSize := if isA5 then 13 else 18
    companyDetailsFontSize := if isA5 then 8 else 10
    invoiceTitleFontSize := if isA5 then 16 else 22
    invoiceNumberFontSize := if isA5 then 9 else 12
    statusBadgeFontSize := if isA5 then 8 else 10
    sectionMarginTop := if isA5 then 10 else 18
    sectionMarginBottom := if isA5 then 10 else 18
    billToMarginRight := if isA5 then 10 else 30
    billToTitleFontSize := if isA5 then 9 else 11
    billToDetailsFontSize := if isA5 then 8 else 10
    detailsLabelFontSize := if isA5 then 8 else 10
    detailsValueFontSize := if isA5 then 8 else 10
    tableMarginTop := if isA5 then 6 else 12
    tableMarginBottom := if isA5 then 12 else 18
    tableHeaderPaddingVertical := if isA5 then 4 else 6
    tableHeaderCellFontSize := if isA5 then 8 else 10
    tableRowPaddingVertical := if isA5 then 3 else 5
    tableCellFontSize := if isA5 then 8 else 10
    totalsSectionWidth := if isA5 then 140 else 200
    totalsSectionMarginTop := if isA5 then 8 else 12
    totalsSectionMarginBottom := if isA5 then 10 else 16
    totalLabelFontSize := if isA5 then 8 else 10
    totalValueFontSize := if isA5 then 8 else 10
    grandTotalLabelFontSize := if isA5 then 10 else 13
    grandTotalValueFontSize := if isA5 then 10 else 13
    notesSectionMarginTop := if isA5 then 10 else 18
    notesSectionPadding := if isA5 then 6 else 10
    notesTitleFontSize := if isA5 then 9 else 11
    notesTextFontSize := if isA5 then 8 else 10 }

/-- Result of `invoice.status.toUpperCase()` on the four possible status values. -/
def statusUpper : InvoiceStatus → String
  | .draft => "DRAFT"
  | .sent => "SENT"
  | .paid => "PAID"
  | .overdue => "OVERDUE"

/-- Source function `getStatusColor` from `InvoicePDF`. -/
def getStatusColor : InvoiceStatus → String
  | .paid => "#10b981"
  | .sent => "#f59e0b"
  | .overdue => "#ef4444"
  | .draft => "#64748b"

/-- Text of an optional `{value && <Text>}` element. -/
def optText : Option String → List String
  | some v => [v]
  | none => []

/-- The textual content of the document produced by `InvoicePDF`, one
string per `<Text>` element in document order.  `fd` stands for the
`formatDate` closure (`toLocaleDateString`), `numStr` for JavaScript
number-to-string coercion in `{...}` interpolation, and `fix2` for
`.toFixed(2)` string formatting; all three are the same host functions
for both paper sizes.  The `format` parameter is threaded exactly as in
the source, where it reaches only `createStyles` and the `<Page size>`
attribute, never a `<Text>` child. -/
def invoiceTexts (fd : String → String) (numStr : ℚ → String)
    (fix2 : ℚ → String) (invoice : Invoice) (client : Client)
    (profile : Profile) (items : List InvoiceItem) (_format : PaperFormat) :
    List String :=
  [profile.company_name.getD profile.full_name]
    ++ optText profile.company_address
    ++ optText profile.phone
    ++ [profile.email]
    ++ ["INVOICE", "#" ++ invoice.invoice_number, statusUpper invoice.status]
    ++ ["Bill To", client.name]
    ++ optText client.company
    ++ optText client.address
    ++ optText client.phone
    ++ [client.email]
    ++ ["Issue Date:", fd invoice.issue_date, "Due Date:", fd invoice.due_date]
    ++ ["Description", "Qty", "Rate", "Amount"]
    ++ (items.flatMap fun item =>
        [item.description, numStr item.quantity, "$" ++ fix2 item.rate,
          "$" ++ fix2 item.amount])
    ++ ["Subtotal:", "$" ++ fix2 invoice.subtotal,
        "Tax (" ++ numStr invoice.tax_rate ++ "%):", "$" ++ fix2 invoice.tax_amount,
        "Total:", "$" ++ fix2 invoice.total]
    ++ (match invoice.notes with
        | some n => ["Notes", n]
        | none => [])

/-- The rendered document: the page size and style metrics (layout) next
to the textual content. -/
structure RenderedDoc where
  pageSize : PaperFormat
  styles : Styles
  texts : List String

/-- Component `InvoicePDF` as a whole: `createStyles(format)` for the layout, the
`<Page size={format}>` attribute, and the text nodes. -/
def renderInvoicePDF (fd : String → String) (numStr : ℚ → String)
    (fix2 : ℚ → String) (invoice : Invoice) (client : Client)
    (profile : Profile) (items : List InvoiceItem) (format : PaperFormat) :
    RenderedDoc :=
  { pageSize := format
    styles := createStyles format
    texts := invoiceTexts fd numStr fix2 invoice client profile items format }

/-- The name of a paper format in a template string. -/
def formatName : PaperFormat → String
  | .A4 => "A4"
  | .A5 => "A5"

/-- Source function `generateInvoicePDF`: builds the `InvoicePDF` element and awaits
`pdf(doc).toBlob()`.  The rendering backend is the host environment, so
its outcome — a blob or a rejection — enters the model as the
`renderResult` parameter, which the function returns (awaits) as is. -/
def generateInvoicePDF (renderResult : Except String String) :
    Except String String :=
  renderResult

/-- DOM side effects of a successful `downloadInvoicePDF`. -/
inductive DownloadEffect where
  | createObjectURL
  | appendLink (filename : String)
  | click
  | removeLink
  | revokeObjectURL
  deriving Repr, DecidableEq

/-- Source function `downloadInvoicePDF`: awaits `generateInvoicePDF` with no
`try`/`catch`, so a rejected render propagates to the caller; on success
creates an object URL, appends and clicks a link named
`invoice-NUMBER-FORMAT.pdf`, then cleans up. -/
def downloadInvoicePDF (renderResult : Except String String)
    (invoice : Invoice) (format : PaperFormat) :
    Except String (List DownloadEffect) :=
  match generateInvoicePDF renderResult with
  | .error e => .error e
  | .ok _blob =>
    .ok [.createObjectURL,
      .appendLink ("invoice-" ++ invoice.invoice_number ++ "-"
        ++ formatName format ++ ".pdf"),
      .click, .removeLink, .revokeObjectURL]

/-- The `@page` and `body` style values interpolated into the print
document: `size: ${format}`, `margin: ${format === 'A5' ? '15mm' :
'20mm'}`, `font-size: ${format === 'A5' ? '10px' : '12px'}`. -/
structure PrintPageStyle where
  pageSize : PaperFormat
  marginMm : ℚ
  fontSizePx : ℚ
  deriving Repr, DecidableEq

/-- The print-page style chosen by `printInvoice` for a format. -/
def printPageStyle (format : PaperFormat) : PrintPageStyle :=
  { pageSize := format
    marginMm := if format = PaperFormat.A5 then 15 else 20
    fontSizePx := if format = PaperFormat.A5 then 10 else 12 }

/-- The browser environment consulted by `printInvoice`: whether
`window.open('', '_blank')` yields a window (popup not blocked), and
what `document.getElementById('invoice-content')` yields. -/
structure PrintEnv where
  popupAllowed : Bool
  invoiceContent : Option String
  deriving Repr, DecidableEq

/-- Side effects of `printInvoice`. -/
inductive PrintEffect where
  | openWindow
  | writeDocument (style : PrintPageStyle) (content : String)
  | printDialog
  | closeWindow
  deriving Repr, DecidableEq

/-- Source function `printInvoice(format)`: opens a blank window; only `if (printWindow)`
and `if (content)` does it write the print document and invoke
print/close.  Neither guard has an `else`: the function throws nothing
and returns nothing on every path, so its result is always `Except.ok`
of the effects that happened. -/
def printInvoice (env : PrintEnv) (format : PaperFormat) :
    Except String (List PrintEffect) :=
  if env.popupAllowed then
    match env.invoiceContent with
    | some content =>
      .ok [.openWindow, .writeDocument (printPageStyle format) content,
        .printDialog, .closeWindow]
    | none => .ok [.openWindow]
  else .ok []

/-- Whether a field update leaves an item's `id` unchanged (every field
except `id` itself). -/
def keepsId : ItemField → Bool
  | .idField _ => false
  | _ => true

/-- Whether an operation's `addItem` id (if any) is fresh for the
current list. -/
def opGuard (items : List InvoiceItem) : EditorOp → Bool
  | .add newId => !((items.map InvoiceItem.id).contains newId)
  | _ => true

/-- Freshness of the ids handed to `addItem` along a run: each `add`
uses an id not currently in the list (what `Date.now().toString()`
delivers when no two adds share a millisecond and the clock is past the
initial id). -/
def opsFresh : List InvoiceItem → List EditorOp → Bool
  | _, [] => true
  | items, op :: rest => opGuard items op && opsFresh (applyOp items op) rest

/-- A concrete line item (2 units at rate 50) used to evaluate the
theorems on sample inputs. -/
def sampleItem : InvoiceItem :=
  { id := "1", description := "a", quantity := 2, rate := 50, amount := 100 }

/-- A concrete invoice used to evaluate the theorems on sample inputs. -/
def sampleInvoice : Invoice :=
  { id := "i1", invoice_number := "42", title := "T",
    status := InvoiceStatus.draft, issue_date := "2024-01-01",
    due_date := "2024-02-01", subtotal := 0, tax_rate := 0,
    tax_amount := 0, total := 0, notes := none }

/-! ## Helper lemmas -/

lemma foldl_add_amount (l : List InvoiceItem) (init : ℚ) :
    l.foldl (fun sum item => sum + item.amount) init
      = init + (l.map (fun it => it.amount)).sum := by
  induction l generalizing init with
  | nil => simp
  | cons a t ih => simp [List.foldl_cons, ih, add_assoc]

lemma calculateTotals_subtotal (items : List InvoiceItem) (taxRate : ℚ) :
    (calculateTotals items taxRate).subtotal
      = (items.map (fun it => it.amount)).sum := by
  simp [calculateTotals, foldl_add_amount]

lemma derivedOK_initialItems : derivedOK initialItems := by
  intro it hit
  simp only [initialItems, List.mem_singleton] at hit
  subst hit
  norm_num

lemma derivedOK_addItem {items : List InvoiceItem} (h : derivedOK items)
    (newId : String) : derivedOK (addItem items newId) := by
  intro it hit
  rcases List.mem_append.mp hit with h1 | h2
  · exact h it h1
  · simp only [List.mem_singleton] at h2
    subst h2
    norm_num

lemma derivedOK_removeItem {items : List InvoiceItem} (h : derivedOK items)
    (i : String) : derivedOK (removeItem items i) := by
  intro it hit
  unfold removeItem at hit
  split at hit
  · exact h it (List.mem_of_mem_filter hit)
  · exact h it hit

lemma derivedOK_updateItem_qr {items : List InvoiceItem} (h : derivedOK items)
    (i : String) (f : ItemField) (hf : isQuantityOrRate f = true) :
    derivedOK (updateItem items i f) := by
  intro it hit
  rcases List.mem_map.mp hit with ⟨a, ha, rfl⟩
  by_cases hid : a.id = i
  · simp [hid, hf]
  · simp only [hid, if_false]
    exact h a ha

lemma derivedOK_updateItem_desc {items : List InvoiceItem} (h : derivedOK items)
    (i : String) (v : String) :
    derivedOK (updateItem items i (.descriptionField v)) := by
  intro it hit
  rcases List.mem_map.mp hit with ⟨a, ha, rfl⟩
  by_cases hid : a.id = i
  · simpa [hid, isQuantityOrRate, applyField] using h a ha
  · simp only [hid, if_false]
    exact h a ha

lemma derivedOK_applyOp {items : List InvoiceItem} (h : derivedOK items)
    (op : EditorOp) : derivedOK (applyOp items op) := by
  cases op with
  | add newId => exact derivedOK_addItem h newId
  | remove i => exact derivedOK_removeItem h i
  | editDescription i v => exact derivedOK_updateItem_desc h i v
  | editQuantity i raw => exact derivedOK_updateItem_qr h i _ rfl
  | editRate i raw => exact derivedOK_updateItem_qr h i _ rfl

lemma derivedOK_applyOps {items : List InvoiceItem} (h : derivedOK items)
    (ops : List EditorOp) : derivedOK (applyOps items ops) := by
  induction ops generalizing items with
  | nil => exact h
  | cons op rest ih => exact ih (derivedOK_applyOp h op)

lemma sum_amounts_of_derived {items : List InvoiceItem} (h : derivedOK items) :
    (items.map (fun it => it.amount)).sum
      = (items.map (fun it => it.quantity * it.rate)).sum := by
  congr 1
  exact List.map_congr_left h

lemma foldl_sumStep (l : List InvoiceItem) (a : ℚ) (st : EditorState) :
    l.foldl sumStep (a, st)
      = (l.foldl (fun sum item => sum + item.amount) a, st) := by
  induction l generalizing a with
  | nil => rfl
  | cons x t ih => simp [List.foldl_cons, sumStep, ih]

/-! ## Claim theorems -/

/-- C1: for every items list maintained by the editor operations
(`addItem`, `removeItem`, `updateItem` as invoked from the UI) — any run
of operations from a start list satisfying the derived-amount invariant,
such as `NewInvoice`'s initial one-item state — the `subtotal` returned
by `calculateTotals` equals the exact sum of `quantity * rate` over all
items in the list. -/
theorem editor_subtotal_eq_sum_quantity_rate (start : List InvoiceItem)
    (hstart : derivedOK start) (ops : List EditorOp) (taxRate : ℚ) :
    (calculateTotals (applyOps start ops) taxRate).subtotal
      = ((applyOps start ops).map
          (fun it => it.quantity * it.rate)).sum := by
  rw [calculateTotals_subtotal]
  exact sum_amounts_of_derived (derivedOK_applyOps hstart ops)

/-- Witness for C1: a concrete run from the initial state, editing the
quantity of the initial item to 3. -/
theorem editor_subtotal_eq_sum_quantity_rate_witness :
    derivedOK initialItems ∧
      (calculateTotals
          (applyOps initialItems [EditorOp.editQuantity "1" "3"]) 10).subtotal
        = ((applyOps initialItems [EditorOp.editQuantity "1" "3"]).map
            (fun it => it.quantity * it.rate)).sum :=
  ⟨derivedOK_initialItems,
    editor_subtotal_eq_sum_quantity_rate initialItems derivedOK_initialItems
      [EditorOp.editQuantity "1" "3"] 10⟩

/-- C2: for every items list and every tax rate in `[0, 100]`,
`calculateTotals` returns `taxAmount = subtotal * taxRate / 100` and
`total = subtotal + taxAmount`. -/
theorem calculateTotals_tax_and_total (items : List InvoiceItem)
    (taxRate : ℚ) (h0 : 0 ≤ taxRate) (h100 : taxRate ≤ 100) :
    (calculateTotals items taxRate).taxAmount
        = (calculateTotals items taxRate).subtotal * taxRate / 100 ∧
      (calculateTotals items taxRate).total
        = (calculateTotals items taxRate).subtotal
            + (calculateTotals items taxRate).taxAmount := by
  constructor
  · simp [calculateTotals, mul_div_assoc]
  · simp [calculateTotals]

/-- Witness for C2 at the empty list and tax rate 10. -/
theorem calculateTotals_tax_and_total_witness :
    (0 : ℚ) ≤ 10 ∧ (10 : ℚ) ≤ 100 ∧
      ((calculateTotals [] 10).taxAmount
          = (calculateTotals [] 10).subtotal * 10 / 100 ∧
        (calculateTotals [] 10).total
          = (calculateTotals [] 10).subtotal
              + (calculateTotals [] 10).taxAmount) :=
  ⟨by norm_num, by norm_num,
    calculateTotals_tax_and_total [] 10 (by norm_num) (by norm_num)⟩

/-- C8: on the empty item list, `calculateTotals` returns all-zero
totals for every tax rate, with no error condition (it is a total
function). -/
theorem calculateTotals_nil (taxRate : ℚ) :
    calculateTotals [] taxRate = { subtotal := 0, taxAmount := 0, total := 0 } := by
  simp [calculateTotals]

/-- C9: `calculateTotals` is pure and idempotent.  Running it as a
state-passing computation over the component state returns exactly the
value of the pure function together with the state unchanged, so two
evaluations on the same state yield the same totals. -/
theorem calculateTotalsST_pure (s : EditorState) :
    calculateTotalsST s = (calculateTotals s.items s.invoiceData.taxRate, s) ∧
      (calculateTotalsST ((calculateTotalsST s).2)).1 = (calculateTotalsST s).1 := by
  have hmain : ∀ st : EditorState,
      calculateTotalsST st = (calculateTotals st.items st.invoiceData.taxRate, st) := by
    intro st
    simp [calculateTotalsST, calculateTotals, foldl_sumStep]
  refine ⟨hmain s, ?_⟩
  rw [hmain s]
  simp [hmain s]

/-- C6: the document rendered for A4 and the document rendered for A5
carry identical textual content — the same list of `<Text>` strings
(issuer identity, invoice number and status, bill-to block, dates, item
rows, totals, notes) — for every invoice, client, profile and item
list; only the `pageSize` and the `createStyles` layout metrics depend
on the format. -/
theorem renderInvoicePDF_texts_format_independent (fd : String → String)
    (numStr : ℚ → String) (fix2 : ℚ → String) (invoice : Invoice)
    (client : Client) (profile : Profile) (items : List InvoiceItem) :
    (renderInvoicePDF fd numStr fix2 invoice client profile items PaperFormat.A4).texts
      = (renderInvoicePDF fd numStr fix2 invoice client profile items PaperFormat.A5).texts :=
  rfl

/-- C3: after any `updateItem` call that sets `quantity` or `rate`, the
matched item's `amount` equals its new `quantity * rate`; and no editor
operation (add, remove, or any UI field update) moves a list satisfying
`amount = quantity * rate` out of that invariant — `amount` is never set
independently. -/
theorem updateItem_amount_derived :
    (∀ (items : List InvoiceItem) (i : String) (f : ItemField),
        isQuantityOrRate f = true →
          ∀ it ∈ updateItem items i f, it.id = i →
            it.amount = it.quantity * it.rate) ∧
      (∀ (items : List InvoiceItem) (op : EditorOp),
        derivedOK items → derivedOK (applyOp items op)) := by
  constructor
  · intro items i f hf it hit hid
    rcases List.mem_map.mp hit with ⟨a, ha, rfl⟩
    by_cases hai : a.id = i
    · simp [hai, hf]
    · rw [if_neg hai] at hid
      exact absurd hid hai
  · intro items op h
    exact derivedOK_applyOp h op

/-- Witness for C3: a concrete quantity update recomputes the amount,
and a concrete add preserves the derived-amount invariant. -/
theorem updateItem_amount_derived_witness :
    (∀ it ∈ updateItem initialItems "1" (ItemField.quantityField 3),
        it.id = "1" → it.amount = it.quantity * it.rate) ∧
      derivedOK (applyOp initialItems (EditorOp.add "2")) :=
  ⟨updateItem_amount_derived.1 initialItems "1" (ItemField.quantityField 3) rfl,
    updateItem_amount_derived.2 initialItems (EditorOp.add "2")
      derivedOK_initialItems⟩

/-- C7: when the numeric parse of an input string fails (non-numeric
input), the `parseFloat(...) || 0` handlers store zero — for the tax
rate and for an item's quantity and rate — and raise no error (every
handler is a total function into the new state). -/
theorem nonNumericInput_defaults_zero (raw : String) (d : InvoiceData)
    (items : List InvoiceItem) (i : String)
    (h : jsParseFloat raw = none) :
    parseOr0 raw = 0 ∧
      (handleTaxRateInput d raw).taxRate = 0 ∧
      (∀ it ∈ applyOp items (.editQuantity i raw), it.id = i → it.quantity = 0) ∧
      (∀ it ∈ applyOp items (.editRate i raw), it.id = i → it.rate = 0) := by
  have p0 : parseOr0 raw = 0 := by simp [parseOr0, h]
  refine ⟨p0, by simp [handleTaxRateInput, p0], ?_, ?_⟩
  · intro it hit hid
    rcases List.mem_map.mp hit with ⟨a, ha, rfl⟩
    by_cases hai : a.id = i
    · simp [hai, p0, isQuantityOrRate, applyField]
    · rw [if_neg hai] at hid
      exact absurd hid hai
  · intro it hit hid
    rcases List.mem_map.mp hit with ⟨a, ha, rfl⟩
    by_cases hai : a.id = i
    · simp [hai, p0, isQuantityOrRate, applyField]
    · rw [if_neg hai] at hid
      exact absurd hid hai

/-- Witness for C7 on the non-numeric input string `abc`. -/
theorem nonNumericInput_defaults_zero_witness :
    jsParseFloat "abc" = none ∧
      (parseOr0 "abc" = 0 ∧
        (handleTaxRateInput { taxRate := 7 } "abc").taxRate = 0 ∧
        (∀ it ∈ applyOp initialItems (.editQuantity "1" "abc"),
          it.id = "1" → it.quantity = 0) ∧
        (∀ it ∈ applyOp initialItems (.editRate "1" "abc"),
          it.id = "1" → it.rate = 0)) :=
  ⟨by decide,
    nonNumericInput_defaults_zero "abc" { taxRate := 7 } initialItems "1" (by decide)⟩

/-- C5 counterexample: document-rendering/print failures in
`printInvoice` are silently ignored, not reported.  With the popup
blocked (`window.open` returns `null`) the call returns normally with no
effects and no error; with the window open but the `invoice-content`
element absent it returns normally having only opened an empty window —
in neither case does the caller receive an error. -/
theorem printInvoice_silent_failure :
    printInvoice { popupAllowed := false, invoiceContent := some "invoice" }
        PaperFormat.A4 = Except.ok [] ∧
      printInvoice { popupAllowed := true, invoiceContent := none }
        PaperFormat.A4 = Except.ok [PrintEffect.openWindow] := by
  constructor <;> rfl

/-- C5 amended: a rendering failure in `downloadInvoicePDF` is reported
to the caller as an error (the rejected `pdf(...).toBlob()` promise
propagates, there being no `try`/`catch`); `printInvoice`, however,
never reports an error to the caller — it returns normally on every
environment, and does nothing when the print window cannot be opened. -/
theorem downloadInvoicePDF_propagates_error (e : String) (invoice : Invoice)
    (format : PaperFormat) (env : PrintEnv) :
    downloadInvoicePDF (Except.error e) invoice format = Except.error e ∧
      (∃ effs, printInvoice env format = Except.ok effs) ∧
      (env.popupAllowed = false → printInvoice env format = Except.ok []) := by
  refine ⟨rfl, ?_, ?_⟩
  · unfold printInvoice
    rcases env with ⟨pa, ic⟩
    cases pa
    · exact ⟨[], rfl⟩
    · cases ic
      · exact ⟨[PrintEffect.openWindow], rfl⟩
      · exact ⟨_, rfl⟩
  · intro hp
    simp [printInvoice, hp]

/-- Witness for C5's amended theorem: a concrete failing render and a
concrete blocked-popup environment. -/
theorem downloadInvoicePDF_propagates_error_witness :
    downloadInvoicePDF (Except.error "render failed") sampleInvoice
        PaperFormat.A4 = Except.error "render failed" ∧
      ({ popupAllowed := false, invoiceContent := none } : PrintEnv).popupAllowed
          = false ∧
      printInvoice { popupAllowed := false, invoiceContent := none }
        PaperFormat.A4 = Except.ok [] :=
  ⟨(downloadInvoicePDF_propagates_error "render failed" sampleInvoice
      PaperFormat.A4 { popupAllowed := false, invoiceContent := none }).1,
    rfl,
    (downloadInvoicePDF_propagates_error "render failed" sampleInvoice
      PaperFormat.A4
      { popupAllowed := false, invoiceContent := none }).2.2 rfl⟩

lemma jsToFixed2_of_nonneg {x : ℚ} (hx : 0 ≤ x) :
    ∃ n : ℕ, jsToFixed2 x = (n : ℚ) / 100 := by
  refine ⟨(⌊x * 100 + 1 / 2⌋).toNat, ?_⟩
  have hfl : (0 : ℤ) ≤ ⌊x * 100 + 1 / 2⌋ := by
    apply Int.le_floor.mpr
    push_cast
    nlinarith
  have hcast : (((⌊x * 100 + 1 / 2⌋).toNat : ℕ) : ℚ)
      = ((⌊x * 100 + 1 / 2⌋ : ℤ) : ℚ) := by
    exact_mod_cast congrArg (fun t : ℤ => (t : ℚ)) (Int.toNat_of_nonneg hfl)
  rw [jsToFixed2, if_neg (not_lt.mpr hx), hcast]

lemma subtotal_nonneg {items : List InvoiceItem} (taxRate : ℚ)
    (hqr : ∀ it ∈ items, 0 ≤ it.quantity ∧ 0 ≤ it.rate ∧
      it.amount = it.quantity * it.rate) :
    0 ≤ (calculateTotals items taxRate).subtotal := by
  rw [calculateTotals_subtotal]
  apply List.sum_nonneg
  intro x hx
  rcases List.mem_map.mp hx with ⟨a, ha, rfl⟩
  obtain ⟨hq, hr, hder⟩ := hqr a ha
  rw [hder]
  exact mul_nonneg hq hr

/-- C4: for items whose quantities and rates are non-negative (with the
derived `amount = quantity * rate`) and a tax rate in `[0, 100]`, the
subtotal, tax amount and total computed by `calculateTotals` are all
non-negative, and the Invoice Summary displays each of them rounded to
2 fractional digits (`toFixed(2)`), i.e. as a non-negative integer
number of hundredths. -/
theorem totals_nonneg_and_rounded_display (items : List InvoiceItem)
    (taxRate : ℚ)
    (hqr : ∀ it ∈ items, 0 ≤ it.quantity ∧ 0 ≤ it.rate ∧
      it.amount = it.quantity * it.rate)
    (h0 : 0 ≤ taxRate) (h100 : taxRate ≤ 100) :
    (0 ≤ (calculateTotals items taxRate).subtotal ∧
        0 ≤ (calculateTotals items taxRate).taxAmount ∧
        0 ≤ (calculateTotals items taxRate).total) ∧
      invoiceSummaryDisplay items taxRate
        = { subtotalShown := jsToFixed2 (calculateTotals items taxRate).subtotal
            taxShown := jsToFixed2 (calculateTotals items taxRate).taxAmount
            totalShown := jsToFixed2 (calculateTotals items taxRate).total } ∧
      (∃ n1 n2 n3 : ℕ,
        (invoiceSummaryDisplay items taxRate).subtotalShown = (n1 : ℚ) / 100 ∧
        (invoiceSummaryDisplay items taxRate).taxShown = (n2 : ℚ) / 100 ∧
        (invoiceSummaryDisplay items taxRate).totalShown = (n3 : ℚ) / 100) := by
  have hsub : 0 ≤ (calculateTotals items taxRate).subtotal :=
    subtotal_nonneg taxRate hqr
  have htax : 0 ≤ (calculateTotals items taxRate).taxAmount := by
    show 0 ≤ (calculateTotals items taxRate).subtotal * (taxRate / 100)
    exact mul_nonneg hsub (div_nonneg h0 (by norm_num))
  have htot : 0 ≤ (calculateTotals items taxRate).total := by
    show 0 ≤ (calculateTotals items taxRate).subtotal
        + (calculateTotals items taxRate).subtotal * (taxRate / 100)
    exact add_nonneg hsub htax
  refine ⟨⟨hsub, htax, htot⟩, rfl, ?_⟩
  obtain ⟨n1, h1⟩ := jsToFixed2_of_nonneg hsub
  obtain ⟨n2, h2⟩ := jsToFixed2_of_nonneg htax
  obtain ⟨n3, h3⟩ := jsToFixed2_of_nonneg htot
  exact ⟨n1, n2, n3, h1, h2, h3⟩

/-- Witness for C4 on the item list `[(qty 2, rate 50)]` with tax rate
10. -/
theorem totals_nonneg_and_rounded_display_witness :
    (∀ it ∈ [sampleItem],
        0 ≤ it.quantity ∧ 0 ≤ it.rate ∧ it.amount = it.quantity * it.rate) ∧
      (0 : ℚ) ≤ 10 ∧ (10 : ℚ) ≤ 100 ∧
      (0 ≤ (calculateTotals [sampleItem] 10).subtotal ∧
        0 ≤ (calculateTotals [sampleItem] 10).taxAmount ∧
        0 ≤ (calculateTotals [sampleItem] 10).total) :=
  ⟨by
      intro it hit
      simp only [List.mem_singleton] at hit
      subst hit
      norm_num [sampleItem],
    by norm_num, by norm_num,
    (totals_nonneg_and_rounded_display [sampleItem] 10
      (by
        intro it hit
        simp only [List.mem_singleton] at hit
        subst hit
        norm_num [sampleItem])
      (by norm_num) (by norm_num)).1⟩

lemma filter_ne_length_ge (items : List InvoiceItem) (i : String)
    (h : (items.map InvoiceItem.id).Nodup) :
    items.length - 1 ≤ (items.filter (fun it => it.id ≠ i)).length := by
  induction items with
  | nil => simp
  | cons a t ih =>
    simp only [List.map_cons, List.nodup_cons] at h
    obtain ⟨hnotin, hnd⟩ := h
    by_cases hid : a.id = i
    · have ht : t.filter (fun it => it.id ≠ i) = t := by
        apply List.filter_eq_self.mpr
        intro b hb
        have hne : b.id ≠ a.id := by
          intro hcontra
          exact hnotin (hcontra ▸ List.mem_map_of_mem InvoiceItem.id hb)
        simp [hid ▸ hne]
      rw [List.filter_cons_of_neg (by simp [hid]), ht]
      simp
    · rw [List.filter_cons_of_pos (by simp [hid])]
      have := ih hnd
      simp only [List.length_cons]
      omega

lemma updateItem_map_id (items : List InvoiceItem) (i : String)
    (f : ItemField) (hf : keepsId f = true) :
    (updateItem items i f).map InvoiceItem.id = items.map InvoiceItem.id := by
  unfold updateItem
  rw [List.map_map]
  apply List.map_congr_left
  intro a _
  simp only [Function.comp_apply]
  by_cases hid : a.id = i
  · rw [if_pos hid]
    cases f with
    | idField v => simp [keepsId] at hf
    | descriptionField v => simp [isQuantityOrRate, applyField, hid]
    | quantityField v => simp [isQuantityOrRate, applyField, hid]
    | rateField v => simp [isQuantityOrRate, applyField, hid]
    | amountField v => simp [isQuantityOrRate, applyField, hid]
  · rw [if_neg hid]

lemma updateItem_ne_nil (items : List InvoiceItem) (i : String)
    (f : ItemField) (h1 : items ≠ []) : updateItem items i f ≠ [] := by
  unfold updateItem
  simpa using h1

lemma applyOp_nonempty_nodup (items : List InvoiceItem) (op : EditorOp)
    (h1 : items ≠ []) (h2 : (items.map InvoiceItem.id).Nodup)
    (hg : opGuard items op = true) :
    applyOp items op ≠ [] ∧ ((applyOp items op).map InvoiceItem.id).Nodup := by
  cases op with
  | add newId =>
    have hfresh : newId ∉ items.map InvoiceItem.id := by
      simp only [opGuard, Bool.not_eq_true'] at hg
      simpa using hg
    constructor
    · simp [applyOp, addItem]
    · show ((items ++ [_]).map InvoiceItem.id).Nodup
      rw [List.map_append]
      simp only [List.map_cons, List.map_nil]
      rw [List.nodup_append]
      exact ⟨h2, List.nodup_singleton _, by simpa using hfresh⟩
  | remove i =>
    show removeItem items i ≠ [] ∧
      ((removeItem items i).map InvoiceItem.id).Nodup
    unfold removeItem
    by_cases hl : items.length > 1
    · rw [if_pos hl]
      constructor
      · have hlen := filter_ne_length_ge items i h2
        intro hempty
        rw [hempty] at hlen
        simp only [List.length_nil, Nat.le_zero] at hlen
        omega
      · exact h2.sublist ((List.filter_sublist items).map InvoiceItem.id)
    · rw [if_neg hl]
      exact ⟨h1, h2⟩
  | editDescription i v =>
    exact ⟨updateItem_ne_nil items i _ h1,
      (updateItem_map_id items i (.descriptionField v) rfl) ▸ h2⟩
  | editQuantity i raw =>
    exact ⟨updateItem_ne_nil items i _ h1,
      (updateItem_map_id items i (.quantityField (parseOr0 raw)) rfl) ▸ h2⟩
  | editRate i raw =>
    exact ⟨updateItem_ne_nil items i _ h1,
      (updateItem_map_id items i (.rateField (parseOr0 raw)) rfl) ▸ h2⟩

lemma applyOps_nonempty_nodup (ops : List EditorOp) :
    ∀ items : List InvoiceItem, items ≠ [] →
      (items.map InvoiceItem.id).Nodup → opsFresh items ops = true →
      applyOps items ops ≠ [] ∧
        ((applyOps items ops).map InvoiceItem.id).Nodup := by
  induction ops with
  | nil => intro items h1 h2 _; exact ⟨h1, h2⟩
  | cons op rest ih =>
    intro items h1 h2 hf
    rw [opsFresh, Bool.and_eq_true] at hf
    obtain ⟨hg, hrest⟩ := hf
    obtain ⟨s1, s2⟩ := applyOp_nonempty_nodup items op h1 h2 hg
    exact ih (applyOp items op) s1 s2 hrest

/-- C10 counterexample: the editor's item list can become empty.
`addItem` takes its id from `Date.now().toString()`, so two clicks in
the same millisecond yield two items with the same id; `removeItem`
filters out every item with the given id.  From the initial one-item
list, adding twice with the same id, removing the initial item and then
removing the duplicated id leaves the empty list, so `removeItem` was
not a no-op guarding the last item and the empty-list totals case is
reachable through the editor interface. -/
theorem editor_items_can_become_empty :
    applyOps initialItems
        [EditorOp.add "t", EditorOp.add "t", EditorOp.remove "1",
          EditorOp.remove "t"] = [] := by
  decide

/-- C10 amended: provided every id handed to `addItem` is fresh (not
already in the list) — which holds whenever no two `addItem` calls fall
in the same `Date.now()` millisecond — the editor's item list always
keeps at least one item: the list starts with one item, `addItem` only
grows it, and `removeItem` removes at most one item and is a no-op when
exactly one item remains. -/
theorem editor_items_nonempty_of_fresh_ids (ops : List EditorOp)
    (h : opsFresh initialItems ops = true) :
    1 ≤ (applyOps initialItems ops).length := by
  have hne : applyOps initialItems ops ≠ [] :=
    (applyOps_nonempty_nodup ops initialItems
      (by simp [initialItems]) (by simp [initialItems]) h).1
  exact List.length_pos.mpr hne

/-- Witness for C10's amended theorem on a concrete fresh-id run. -/
theorem editor_items_nonempty_of_fresh_ids_witness :
    opsFresh initialItems [EditorOp.add "2", EditorOp.remove "1"] = true ∧
      1 ≤ (applyOps initialItems
        [EditorOp.add "2", EditorOp.remove "1"]).length :=
  ⟨by decide,
    editor_items_nonempty_of_fresh_ids
      [EditorOp.add "2", EditorOp.remove "1"] (by decide)⟩

end Invoicely
